import Mathlib

/-!
# Credential verification client: frontend/src/api/auth.js

A shallow embedding of the asynchronous function loginApi together with the
fragment of JavaScript semantics it relies on: strict equality against a
literal, property reads, optional chaining, truthiness and the logical-or
fallback.  The HTTP transport (the default export of ./client) is a
parameter of the model.  Effects are recorded in an explicit trace.
-/

namespace Auth

/-- JavaScript values as plain data.  Numbers are represented by their integer
values together with NaN, which is all the code distinguishes: it compares a
number with the literal 200 and tests truthiness.  Objects are finite lists
of own data properties, looked up by key; accessor properties and proxies,
whose reads could run code, are not represented. -/
inductive JSValue where
  | undefined : JSValue
  | null : JSValue
  | bool (b : Bool) : JSValue
  | number (n : Int) : JSValue
  | nan : JSValue
  | str (s : String) : JSValue
  | object (fields : List (String × JSValue)) : JSValue

/-- The value thrown by the runtime when a property is read from null or
undefined. -/
def typeError : JSValue :=
  JSValue.object [("name", JSValue.str "TypeError")]

/-- Strict equality with a string literal on the right: v === s. -/
def strictEqStr (v : JSValue) (s : String) : Bool :=
  match v with
  | JSValue.str t => t == s
  | _ => false

/-- Strict equality with an integer literal on the right: v === n. -/
def strictEqNum (v : JSValue) (n : Int) : Bool :=
  match v with
  | JSValue.number m => m == n
  | _ => false

/-- ToBoolean: the falsy values are undefined, null, false, 0, NaN and the
empty string. -/
def toBoolean (v : JSValue) : Bool :=
  match v with
  | JSValue.undefined => false
  | JSValue.null => false
  | JSValue.bool b => b
  | JSValue.number n => n != 0
  | JSValue.nan => false
  | JSValue.str s => s != ""
  | JSValue.object _ => true

/-- Logical or: a || b is a when a is truthy and b otherwise. -/
def jsOr (a b : JSValue) : JSValue :=
  if toBoolean a then a else b

/-- Property read v.k for the keys loginApi reads (data, status, message).
Reading from undefined or null throws; a primitive has no such property; an
object yields the stored value, or undefined when the key is absent. -/
def getProp (v : JSValue) (k : String) : Except JSValue JSValue :=
  match v with
  | JSValue.undefined => Except.error typeError
  | JSValue.null => Except.error typeError
  | JSValue.object fs => Except.ok ((fs.lookup k).getD JSValue.undefined)
  | _ => Except.ok JSValue.undefined

/-- Optional chaining v?.k: undefined when v is undefined or null, the
property read otherwise. -/
def optChain (v : JSValue) (k : String) : JSValue :=
  match v with
  | JSValue.undefined => JSValue.undefined
  | JSValue.null => JSValue.undefined
  | JSValue.object fs => (fs.lookup k).getD JSValue.undefined
  | _ => JSValue.undefined

/-- Observable effects of a run. -/
inductive Effect where
  | post (path : String) (body : JSValue) : Effect
  | log (v : JSValue) : Effect

/-- The injected HTTP transport: http.post(path, body) awaited.  It either
resolves with a response value or throws / rejects with an error value. -/
abbrev Transport := String → JSValue → Except JSValue JSValue

/-- The object literal returned by loginApi.  The field ok is a boolean on
both paths: the literal true, or the conjunction of two strict equalities. -/
structure VerificationResult where
  ok : Bool
  message : JSValue
  raw : JSValue

/-- The outcome of running an asynchronous function to completion: the
effects performed, in order, and either the value the promise resolves with
or the error it rejects with. -/
structure Run (α : Type) where
  trace : List Effect
  outcome : Except JSValue α

/-- Sequencing of runs: effects accumulate, a failure stops the run. -/
def Run.bind {α β : Type} (m : Run α) (f : α → Run β) : Run β :=
  match m.outcome with
  | Except.error e => ⟨m.trace, Except.error e⟩
  | Except.ok a => ⟨m.trace ++ (f a).trace, (f a).outcome⟩

instance : Monad Run where
  pure a := ⟨[], Except.ok a⟩
  bind := Run.bind

/-- The call await http.post(path, body): one transport invocation. -/
def httpPost (http : Transport) (path : String) (body : JSValue) : Run JSValue :=
  ⟨[Effect.post path body], http path body⟩

/-- The call console.log(v). -/
def consoleLog (v : JSValue) : Run Unit :=
  ⟨[Effect.log v], Except.ok ()⟩

/-- A pure step that may throw. -/
def liftExcept {α : Type} (x : Except JSValue α) : Run α :=
  ⟨[], x⟩

/-- The function loginApi of frontend/src/api/auth.js. -/
def loginApi (http : Transport) (username password : JSValue) :
    Run VerificationResult :=
  if strictEqStr username "admin@giantmindsolutions.com" &&
      strictEqStr password "admin@123" then
    pure ⟨true, JSValue.str "Login successful", JSValue.null⟩
  else do
    let res ← httpPost http "users/login"
      (JSValue.object [("username", username), ("password", password)])
    consoleLog res
    let data := optChain res "data"
    let status ← liftExcept (getProp res "status")
    let ok := strictEqNum status 200 &&
      strictEqStr (optChain data "message") "Login successful"
    pure ⟨ok,
      jsOr (optChain data "message")
        (if ok then JSValue.str "Login successful" else JSValue.str "Login failed"),
      data⟩

/-- The transport invocations recorded in a trace, in order. -/
def transportCalls (t : List Effect) : List (String × JSValue) :=
  t.filterMap fun e =>
    match e with
    | Effect.post path body => some (path, body)
    | Effect.log _ => none

/-- The sentinel credential pair of the bypass rule. -/
def isSentinel (username password : JSValue) : Prop :=
  username = JSValue.str "admin@giantmindsolutions.com" ∧
    password = JSValue.str "admin@123"

/-- A value from which no property can be read: undefined or null. -/
def isNullish (v : JSValue) : Bool :=
  match v with
  | JSValue.undefined => true
  | JSValue.null => true
  | _ => false

/-- The request body built by loginApi. -/
def requestBody (u p : JSValue) : JSValue :=
  JSValue.object [("username", u), ("password", p)]

/-! ## Vocabulary of the specification

What a response holds, read off the data itself rather than through the
property reads of the code. -/

/-- The status field of a response object, when it has one. -/
def statusField (res : JSValue) : Option JSValue :=
  match res with
  | JSValue.object fs => fs.lookup "status"
  | _ => none

/-- The body (data field) of a response object, when it has one. -/
def bodyOf (res : JSValue) : Option JSValue :=
  match res with
  | JSValue.object fs => fs.lookup "data"
  | _ => none

/-- The message field of the body of a response, when the response has a
body that is an object with such a field. -/
def messageField (res : JSValue) : Option JSValue :=
  match bodyOf res with
  | some (JSValue.object gs) => gs.lookup "message"
  | _ => none

/-- The test that a value is a string and is not empty. -/
def isNonEmptyString (v : JSValue) : Bool :=
  match v with
  | JSValue.str s => s != ""
  | _ => false

/-- The response shape agreed with the transport: an object whose status is
a number and whose data is an object or undefined (or absent). -/
def AgreedShape (res : JSValue) : Prop :=
  ((∃ n, statusField res = some (JSValue.number n)) ∨
      statusField res = some JSValue.nan) ∧
    (bodyOf res = none ∨ bodyOf res = some JSValue.undefined ∨
      ∃ gs, bodyOf res = some (JSValue.object gs))

/-- A response object with the given status and a body holding only the given
message. -/
def responseWith (status : Int) (message : JSValue) : JSValue :=
  JSValue.object
    [("status", JSValue.number status), ("data", JSValue.object [("message", message)])]

/-- A transport that resolves every call with the same response. -/
def resolving (res : JSValue) : Transport :=
  fun _ _ => Except.ok res

/-- A transport that fails every call with the same error. -/
def rejecting (e : JSValue) : Transport :=
  fun _ _ => Except.error e

/-- The ok flag computed on the remote path. -/
def remoteOk (res : JSValue) : Bool :=
  strictEqNum (optChain res "status") 200 &&
    strictEqStr (optChain (optChain res "data") "message") "Login successful"

/-- The result built on the remote path from a response that is neither
undefined nor null. -/
def remoteResult (res : JSValue) : VerificationResult :=
  ⟨remoteOk res,
    jsOr (optChain (optChain res "data") "message")
      (if remoteOk res then JSValue.str "Login successful" else JSValue.str "Login failed"),
    optChain res "data"⟩

/-! ## Unfolding lemmas -/

theorem strictEqStr_eq_true (v : JSValue) (s : String) :
    strictEqStr v s = true ↔ v = JSValue.str s := by
  cases v <;> simp [strictEqStr]

theorem strictEqNum_eq_true (v : JSValue) (n : Int) :
    strictEqNum v n = true ↔ v = JSValue.number n := by
  cases v <;> simp [strictEqNum]

theorem loginApi_sentinel (http : Transport) :
    loginApi http (JSValue.str "admin@giantmindsolutions.com")
        (JSValue.str "admin@123") =
      ⟨[], Except.ok ⟨true, JSValue.str "Login successful", JSValue.null⟩⟩ := by
  simp [loginApi, strictEqStr, pure]

theorem condition_false_of_not_sentinel (u p : JSValue) (h : ¬ isSentinel u p) :
    (strictEqStr u "admin@giantmindsolutions.com" &&
      strictEqStr p "admin@123") = false := by
  rw [Bool.eq_false_iff]
  intro hc
  rw [Bool.and_eq_true, strictEqStr_eq_true, strictEqStr_eq_true] at hc
  exact h hc

theorem getProp_of_not_nullish (v : JSValue) (k : String) (h : isNullish v = false) :
    getProp v k = Except.ok (optChain v k) := by
  cases v <;> simp_all [isNullish, getProp, optChain]

theorem getProp_of_nullish (v : JSValue) (k : String) (h : isNullish v = true) :
    getProp v k = Except.error typeError := by
  cases v <;> simp_all [isNullish, getProp]

theorem loginApi_reject (http : Transport) (u p e : JSValue) (h : ¬ isSentinel u p)
    (hr : http "users/login" (requestBody u p) = Except.error e) :
    loginApi http u p =
      ⟨[Effect.post "users/login" (requestBody u p)], Except.error e⟩ := by
  unfold requestBody at hr
  simp [loginApi, condition_false_of_not_sentinel u p h, bind, Run.bind, httpPost, hr,
    requestBody]

theorem loginApi_resolve_nullish (http : Transport) (u p res : JSValue)
    (h : ¬ isSentinel u p)
    (hr : http "users/login" (requestBody u p) = Except.ok res)
    (hn : isNullish res = true) :
    loginApi http u p =
      ⟨[Effect.post "users/login" (requestBody u p), Effect.log res],
        Except.error typeError⟩ := by
  unfold requestBody at hr
  simp [loginApi, condition_false_of_not_sentinel u p h, bind, Run.bind, httpPost, hr,
    requestBody, consoleLog, liftExcept, getProp_of_nullish res "status" hn]

theorem loginApi_resolve (http : Transport) (u p res : JSValue)
    (h : ¬ isSentinel u p)
    (hr : http "users/login" (requestBody u p) = Except.ok res)
    (hn : isNullish res = false) :
    loginApi http u p =
      ⟨[Effect.post "users/login" (requestBody u p), Effect.log res],
        Except.ok (remoteResult res)⟩ := by
  unfold requestBody at hr
  simp [loginApi, condition_false_of_not_sentinel u p h, bind, Run.bind, httpPost, hr,
    requestBody, consoleLog, liftExcept, getProp_of_not_nullish res "status" hn, pure,
    remoteResult, remoteOk]

theorem optChain_status (res : JSValue) :
    optChain res "status" = (statusField res).getD JSValue.undefined := by
  cases res <;> simp [optChain, statusField]

theorem optChain_data (res : JSValue) :
    optChain res "data" = (bodyOf res).getD JSValue.undefined := by
  cases res <;> simp [optChain, bodyOf]

theorem optChain_message (res : JSValue) :
    optChain (optChain res "data") "message" =
      (messageField res).getD JSValue.undefined := by
  rw [optChain_data]
  unfold messageField
  cases hb : bodyOf res with
  | none => simp [optChain]
  | some d => cases d <;> simp [optChain]

theorem remoteOk_iff (res : JSValue) :
    remoteOk res = true ↔
      statusField res = some (JSValue.number 200) ∧
        messageField res = some (JSValue.str "Login successful") := by
  unfold remoteOk
  rw [Bool.and_eq_true, strictEqNum_eq_true, strictEqStr_eq_true, optChain_status,
    optChain_message]
  cases statusField res <;> cases messageField res <;> simp

theorem transportCalls_remote (http : Transport) (u p : JSValue) (h : ¬ isSentinel u p) :
    transportCalls (loginApi http u p).trace = [("users/login", requestBody u p)] := by
  cases hr : http "users/login" (requestBody u p) with
  | error e => rw [loginApi_reject http u p e h hr]; rfl
  | ok res =>
    cases hn : isNullish res with
    | true => rw [loginApi_resolve_nullish http u p res h hr hn]; rfl
    | false => rw [loginApi_resolve http u p res h hr hn]; rfl

theorem jsOr_of_truthy (a b : JSValue) (h : toBoolean a = true) : jsOr a b = a := by
  simp [jsOr, h]

theorem jsOr_of_falsy (a b : JSValue) (h : toBoolean a = false) : jsOr a b = b := by
  simp [jsOr, h]

theorem toBoolean_jsOr (a b : JSValue) (hb : toBoolean b = true) :
    toBoolean (jsOr a b) = true := by
  unfold jsOr
  split
  · assumption
  · exact hb

theorem remoteOk_false_of_falsy_message (res : JSValue)
    (h : toBoolean (optChain (optChain res "data") "message") = false) :
    remoteOk res = false := by
  rw [Bool.eq_false_iff]
  intro hc
  unfold remoteOk at hc
  rw [Bool.and_eq_true, strictEqStr_eq_true] at hc
  rw [hc.2] at h
  simp [toBoolean] at h

theorem remoteResult_message_truthy (res : JSValue) :
    toBoolean (remoteResult res).message = true := by
  unfold remoteResult
  apply toBoolean_jsOr
  split <;> simp [toBoolean]

theorem isNonEmptyString_of_truthy_str (s : String)
    (h : toBoolean (JSValue.str s) = true) : isNonEmptyString (JSValue.str s) = true := by
  simpa [toBoolean, isNonEmptyString] using h

theorem remoteResult_message_cases (res : JSValue) :
    (remoteResult res).message = JSValue.str "Login successful" ∨
      (remoteResult res).message = JSValue.str "Login failed" ∨
      ∃ m, messageField res = some m ∧ toBoolean m = true ∧
        (remoteResult res).message = m := by
  show jsOr _ _ = _ ∨ jsOr _ _ = _ ∨ ∃ m, _ ∧ _ ∧ jsOr _ _ = m
  rw [optChain_message]
  cases hm : messageField res with
  | none =>
    rw [jsOr_of_falsy _ _ (by rfl)]
    split
    · exact Or.inl rfl
    · exact Or.inr (Or.inl rfl)
  | some m =>
    cases ht : toBoolean m with
    | true => exact Or.inr (Or.inr ⟨m, rfl, ht, jsOr_of_truthy _ _ ht⟩)
    | false =>
      rw [Option.getD_some, jsOr_of_falsy _ _ ht]
      split
      · exact Or.inl rfl
      · exact Or.inr (Or.inl rfl)

theorem not_nullish_of_statusField (res v : JSValue) (h : statusField res = some v) :
    isNullish res = false := by
  cases res <;> simp_all [statusField, isNullish]

theorem not_nullish_of_bodyOf (res v : JSValue) (h : bodyOf res = some v) :
    isNullish res = false := by
  cases res <;> simp_all [bodyOf, isNullish]

theorem loginApi_outcome_cases (http : Transport) (u p : JSValue) (r : VerificationResult)
    (hout : (loginApi http u p).outcome = Except.ok r) :
    r = ⟨true, JSValue.str "Login successful", JSValue.null⟩ ∨
      ∃ res, http "users/login" (requestBody u p) = Except.ok res ∧ r = remoteResult res := by
  by_cases h : isSentinel u p
  · obtain ⟨hu, hp⟩ := h
    subst hu hp
    rw [loginApi_sentinel] at hout
    exact Or.inl (Except.ok.inj hout).symm
  · cases hr : http "users/login" (requestBody u p) with
    | error e =>
      rw [loginApi_reject http u p e h hr] at hout
      exact Except.noConfusion hout
    | ok res =>
      cases hn : isNullish res with
      | true =>
        rw [loginApi_resolve_nullish http u p res h hr hn] at hout
        exact Except.noConfusion hout
      | false =>
        rw [loginApi_resolve http u p res h hr hn] at hout
        exact Or.inr ⟨res, rfl, (Except.ok.inj hout).symm⟩

/-! ## The claims -/

/-- C1: for the sentinel pair and every transport, also one that fails on
every call, loginApi returns exactly ok true, message "Login successful", raw
null, and the transport is invoked zero times. -/
theorem C1_sentinel_bypass (http : Transport) :
    (loginApi http (JSValue.str "admin@giantmindsolutions.com")
        (JSValue.str "admin@123")).outcome =
      Except.ok ⟨true, JSValue.str "Login successful", JSValue.null⟩ ∧
    (transportCalls (loginApi http (JSValue.str "admin@giantmindsolutions.com")
        (JSValue.str "admin@123")).trace).length = 0 := by
  rw [loginApi_sentinel]
  exact ⟨rfl, rfl⟩

/-- C2: on the remote path a response that is neither undefined nor null
always gives a result, and for every response the result has ok true if and
only if the status field is the number 200 and the message field of the body
is the string "Login successful". -/
theorem C2_ok_iff_status_and_message (http : Transport) (u p res : JSValue)
    (h : ¬ isSentinel u p)
    (hr : http "users/login" (JSValue.object [("username", u), ("password", p)]) =
      Except.ok res) :
    (isNullish res = false → ∃ r, (loginApi http u p).outcome = Except.ok r) ∧
    ∀ r, (loginApi http u p).outcome = Except.ok r →
      (r.ok = true ↔
        statusField res = some (JSValue.number 200) ∧
          messageField res = some (JSValue.str "Login successful")) := by
  cases hn : isNullish res with
  | true =>
    rw [loginApi_resolve_nullish http u p res h hr hn]
    exact ⟨fun hc => Bool.noConfusion hc, fun r hc => Except.noConfusion hc⟩
  | false =>
    rw [loginApi_resolve http u p res h hr hn]
    refine ⟨fun _ => ⟨_, rfl⟩, fun r hc => ?_⟩
    have hc2 : remoteResult res = r := Except.ok.inj hc
    rw [← hc2]
    exact remoteOk_iff res

/-- Witness for C2: status 401 with message "Login successful". -/
theorem C2_ok_iff_status_and_message_witness :
    ¬ isSentinel (JSValue.str "alice") (JSValue.str "secret") ∧
    resolving (responseWith 401 (JSValue.str "Login successful")) "users/login"
        (JSValue.object [("username", JSValue.str "alice"),
          ("password", JSValue.str "secret")]) =
      Except.ok (responseWith 401 (JSValue.str "Login successful")) ∧
    ((isNullish (responseWith 401 (JSValue.str "Login successful")) = false →
      ∃ r, (loginApi (resolving (responseWith 401 (JSValue.str "Login successful")))
        (JSValue.str "alice") (JSValue.str "secret")).outcome = Except.ok r) ∧
    ∀ r, (loginApi (resolving (responseWith 401 (JSValue.str "Login successful")))
        (JSValue.str "alice") (JSValue.str "secret")).outcome = Except.ok r →
      (r.ok = true ↔
        statusField (responseWith 401 (JSValue.str "Login successful")) =
            some (JSValue.number 200) ∧
          messageField (responseWith 401 (JSValue.str "Login successful")) =
            some (JSValue.str "Login successful"))) :=
  ⟨by simp [isSentinel], rfl,
    C2_ok_iff_status_and_message _ _ _ _ (by simp [isSentinel]) rfl⟩

/-- C3: for every credential pair other than the sentinel pair, when the
transport call fails with an error e, loginApi fails with that same error e
and returns no result. -/
theorem C3_transport_failure_propagates (http : Transport) (u p e : JSValue)
    (h : ¬ isSentinel u p)
    (hr : http "users/login" (JSValue.object [("username", u), ("password", p)]) =
      Except.error e) :
    (loginApi http u p).outcome = Except.error e ∧
      ∀ r, (loginApi http u p).outcome ≠ Except.ok r := by
  rw [loginApi_reject http u p e h hr]
  exact ⟨rfl, fun r hc => Except.noConfusion hc⟩

/-- Witness for C3: a transport that rejects every call. -/
theorem C3_transport_failure_propagates_witness :
    ¬ isSentinel (JSValue.str "alice") (JSValue.str "secret") ∧
    rejecting (JSValue.str "Network Error") "users/login"
        (JSValue.object [("username", JSValue.str "alice"),
          ("password", JSValue.str "secret")]) =
      Except.error (JSValue.str "Network Error") ∧
    ((loginApi (rejecting (JSValue.str "Network Error")) (JSValue.str "alice")
        (JSValue.str "secret")).outcome = Except.error (JSValue.str "Network Error") ∧
      ∀ r, (loginApi (rejecting (JSValue.str "Network Error")) (JSValue.str "alice")
        (JSValue.str "secret")).outcome ≠ Except.ok r) :=
  ⟨by simp [isSentinel], rfl,
    C3_transport_failure_propagates _ _ _ _ (by simp [isSentinel]) rfl⟩

/-- C4: for every credential pair that differs from the sentinel pair in the
username or in the password (exact comparison of the values), loginApi invokes
the transport exactly once. -/
theorem C4_remote_invokes_transport_once (http : Transport) (u p : JSValue)
    (h : ¬ (u = JSValue.str "admin@giantmindsolutions.com" ∧
      p = JSValue.str "admin@123")) :
    (transportCalls (loginApi http u p).trace).length = 1 := by
  rw [transportCalls_remote http u p h]
  rfl

/-- Witness for C4: a password with a trailing space. -/
theorem C4_remote_invokes_transport_once_witness :
    ¬ (JSValue.str "admin@giantmindsolutions.com" =
          JSValue.str "admin@giantmindsolutions.com" ∧
        JSValue.str "admin@123 " = JSValue.str "admin@123") ∧
    (transportCalls (loginApi (rejecting JSValue.undefined)
      (JSValue.str "admin@giantmindsolutions.com")
      (JSValue.str "admin@123 ")).trace).length = 1 :=
  ⟨by simp, C4_remote_invokes_transport_once _ _ _ (by simp)⟩

/-- C5: for every credential pair (u, p) other than the sentinel pair, the
transport calls made by loginApi are exactly one POST to the path
"users/login" whose body is the object with the two fields username u and
password p, both passed through unchanged. -/
theorem C5_request_shape (http : Transport) (u p : JSValue) (h : ¬ isSentinel u p) :
    transportCalls (loginApi http u p).trace =
      [("users/login", JSValue.object [("username", u), ("password", p)])] :=
  transportCalls_remote http u p h

/-- Witness for C5: a username differing from the sentinel in letter case. -/
theorem C5_request_shape_witness :
    ¬ isSentinel (JSValue.str "Admin@giantmindsolutions.com") (JSValue.str "admin@123") ∧
    transportCalls (loginApi (resolving JSValue.null)
        (JSValue.str "Admin@giantmindsolutions.com") (JSValue.str "admin@123")).trace =
      [("users/login", JSValue.object
        [("username", JSValue.str "Admin@giantmindsolutions.com"),
          ("password", JSValue.str "admin@123")])] :=
  ⟨by simp [isSentinel], C5_request_shape _ _ _ (by simp [isSentinel])⟩

/-- C6, as stated, fails: status 200 with a body whose message field is the
empty string yields the message "Login failed", not the field verbatim. -/
theorem C6_counterexample :
    messageField (responseWith 200 (JSValue.str "")) = some (JSValue.str "") ∧
    (loginApi (resolving (responseWith 200 (JSValue.str ""))) (JSValue.str "alice")
        (JSValue.str "secret")).outcome =
      Except.ok ⟨false, JSValue.str "Login failed",
        JSValue.object [("message", JSValue.str "")]⟩ ∧
    JSValue.str "Login failed" ≠ JSValue.str "" := by
  refine ⟨rfl, ?_, by simp⟩
  rw [loginApi_resolve (resolving (responseWith 200 (JSValue.str ""))) _ _
    (responseWith 200 (JSValue.str "")) (by simp [isSentinel]) rfl rfl]
  rfl

/-- C6, amended: on the remote path, for every response whose body has a
truthy message field the result's message equals that field verbatim; for
every response whose body has no message field, or a falsy one, the result's
message is "Login successful" when ok is true and "Login failed" when ok is
false. -/
theorem C6_message_verbatim_or_default (http : Transport) (u p res : JSValue)
    (h : ¬ isSentinel u p)
    (hr : http "users/login" (JSValue.object [("username", u), ("password", p)]) =
      Except.ok res)
    (hn : isNullish res = false) :
    ∃ r, (loginApi http u p).outcome = Except.ok r ∧
      (∀ m, messageField res = some m → toBoolean m = true → r.message = m) ∧
      ((messageField res = none ∨
          ∃ m, messageField res = some m ∧ toBoolean m = false) →
        r.message =
          if r.ok = true then JSValue.str "Login successful"
          else JSValue.str "Login failed") := by
  rw [loginApi_resolve http u p res h hr hn]
  refine ⟨_, rfl, ?_, ?_⟩
  · intro m hm ht
    show jsOr _ _ = m
    rw [optChain_message, hm]
    exact jsOr_of_truthy _ _ ht
  · intro hm
    have hf : toBoolean (optChain (optChain res "data") "message") = false := by
      rw [optChain_message]
      rcases hm with hm | ⟨m, hm, hf⟩
      · rw [hm]; rfl
      · rw [hm]; exact hf
    show jsOr _ _ = _
    rw [jsOr_of_falsy _ _ hf]
    rfl

/-- Witness for C6: status 200 with the message "Bad password". -/
theorem C6_message_verbatim_or_default_witness :
    ¬ isSentinel (JSValue.str "alice") (JSValue.str "secret") ∧
    resolving (responseWith 200 (JSValue.str "Bad password")) "users/login"
        (JSValue.object [("username", JSValue.str "alice"),
          ("password", JSValue.str "secret")]) =
      Except.ok (responseWith 200 (JSValue.str "Bad password")) ∧
    isNullish (responseWith 200 (JSValue.str "Bad password")) = false ∧
    ∃ r, (loginApi (resolving (responseWith 200 (JSValue.str "Bad password")))
        (JSValue.str "alice") (JSValue.str "secret")).outcome = Except.ok r ∧
      (∀ m, messageField (responseWith 200 (JSValue.str "Bad password")) = some m →
        toBoolean m = true → r.message = m) ∧
      ((messageField (responseWith 200 (JSValue.str "Bad password")) = none ∨
          ∃ m, messageField (responseWith 200 (JSValue.str "Bad password")) = some m ∧
            toBoolean m = false) →
        r.message =
          if r.ok = true then JSValue.str "Login successful"
          else JSValue.str "Login failed") :=
  ⟨by simp [isSentinel], rfl, rfl,
    C6_message_verbatim_or_default _ _ _ _ (by simp [isSentinel]) rfl rfl⟩

/-- C7, as stated, fails: status 200 without a body yields raw undefined,
which is not null. -/
theorem C7_counterexample :
    bodyOf (JSValue.object [("status", JSValue.number 200)]) = none ∧
    (loginApi (resolving (JSValue.object [("status", JSValue.number 200)]))
        (JSValue.str "alice") (JSValue.str "secret")).outcome =
      Except.ok ⟨false, JSValue.str "Login failed", JSValue.undefined⟩ ∧
    JSValue.undefined ≠ JSValue.null := by
  refine ⟨rfl, ?_, by simp⟩
  rw [loginApi_resolve (resolving (JSValue.object [("status", JSValue.number 200)])) _ _
    (JSValue.object [("status", JSValue.number 200)]) (by simp [isSentinel]) rfl rfl]
  rfl

/-- C7, amended: on the remote path, for every response (not undefined or
null) that has no body, the data being absent or undefined, with status 200
or any other status, loginApi returns exactly ok false, message
"Login failed", raw undefined. -/
theorem C7_no_body_result (http : Transport) (u p res : JSValue)
    (h : ¬ isSentinel u p)
    (hr : http "users/login" (JSValue.object [("username", u), ("password", p)]) =
      Except.ok res)
    (hn : isNullish res = false)
    (hb : bodyOf res = none ∨ bodyOf res = some JSValue.undefined) :
    (loginApi http u p).outcome =
      Except.ok ⟨false, JSValue.str "Login failed", JSValue.undefined⟩ := by
  rw [loginApi_resolve http u p res h hr hn]
  have hd : optChain res "data" = JSValue.undefined := by
    rw [optChain_data]
    rcases hb with hb | hb <;> rw [hb] <;> rfl
  have hok : remoteOk res = false := by
    apply remoteOk_false_of_falsy_message
    rw [hd]
    rfl
  unfold remoteResult
  rw [hok, hd]
  rfl

/-- Witness for C7: status 500 with data explicitly undefined. -/
theorem C7_no_body_result_witness :
    ¬ isSentinel (JSValue.str "alice") (JSValue.str "secret") ∧
    resolving (JSValue.object [("status", JSValue.number 500),
        ("data", JSValue.undefined)]) "users/login"
        (JSValue.object [("username", JSValue.str "alice"),
          ("password", JSValue.str "secret")]) =
      Except.ok (JSValue.object [("status", JSValue.number 500),
        ("data", JSValue.undefined)]) ∧
    isNullish (JSValue.object [("status", JSValue.number 500),
        ("data", JSValue.undefined)]) = false ∧
    (bodyOf (JSValue.object [("status", JSValue.number 500),
        ("data", JSValue.undefined)]) = none ∨
      bodyOf (JSValue.object [("status", JSValue.number 500),
        ("data", JSValue.undefined)]) = some JSValue.undefined) ∧
    (loginApi (resolving (JSValue.object [("status", JSValue.number 500),
        ("data", JSValue.undefined)])) (JSValue.str "alice")
        (JSValue.str "secret")).outcome =
      Except.ok ⟨false, JSValue.str "Login failed", JSValue.undefined⟩ :=
  ⟨by simp [isSentinel], rfl, rfl, Or.inr rfl,
    C7_no_body_result _ _ _ _ (by simp [isSentinel]) rfl rfl (Or.inr rfl)⟩

/-- C8, as stated, fails: status 200 with a body whose message field is the
number 42 yields a result whose message is the number 42, not a string. -/
theorem C8_counterexample :
    (loginApi (resolving (responseWith 200 (JSValue.number 42))) (JSValue.str "alice")
        (JSValue.str "secret")).outcome =
      Except.ok ⟨false, JSValue.number 42,
        JSValue.object [("message", JSValue.number 42)]⟩ ∧
    isNonEmptyString (JSValue.number 42) = false := by
  refine ⟨?_, rfl⟩
  rw [loginApi_resolve (resolving (responseWith 200 (JSValue.number 42))) _ _
    (responseWith 200 (JSValue.number 42)) (by simp [isSentinel]) rfl rfl]
  rfl

/-- C8, amended: for every credential pair and every transport response for
which loginApi returns a result, the result's message is truthy (so never
undefined, null, false, 0, NaN or the empty string), and it is a non-empty
string whenever every truthy message field the body can hold is a string
(the field being a string, absent or falsy); on the remote path a truthy
message field is returned as it is, so that a truthy field that is not a
string (a non-zero number, true, an object) gives a message that is not a
string. -/
theorem C8_message_truthy (http : Transport) (u p : JSValue) (r : VerificationResult)
    (hout : (loginApi http u p).outcome = Except.ok r) :
    toBoolean r.message = true ∧
    ((∀ res m,
        http "users/login" (JSValue.object [("username", u), ("password", p)]) =
          Except.ok res →
        messageField res = some m → toBoolean m = true → ∃ s, m = JSValue.str s) →
      isNonEmptyString r.message = true) ∧
    (¬ isSentinel u p →
      ∀ res m,
        http "users/login" (JSValue.object [("username", u), ("password", p)]) =
          Except.ok res →
        messageField res = some m → toBoolean m = true →
        r.message = m ∧ ((∀ s, m ≠ JSValue.str s) → isNonEmptyString r.message = false)) := by
  refine ⟨?_, ?_, ?_⟩
  · rcases loginApi_outcome_cases http u p r hout with hr | ⟨res, _, hr⟩
    · subst hr
      rfl
    · subst hr
      exact remoteResult_message_truthy res
  · intro hstr
    rcases loginApi_outcome_cases http u p r hout with hr | ⟨res, hres, hr⟩
    · subst hr
      rfl
    · subst hr
      rcases remoteResult_message_cases res with hm | hm | ⟨m, hm, ht, hmsg⟩
      · rw [hm]; rfl
      · rw [hm]; rfl
      · obtain ⟨s, hs⟩ := hstr res m hres hm ht
        rw [hmsg, hs]
        rw [hs] at ht
        exact isNonEmptyString_of_truthy_str s ht
  · intro hns res m hres hm ht
    have hmsg : r.message = m := by
      cases hn : isNullish res with
      | true =>
        rw [loginApi_resolve_nullish http u p res hns hres hn] at hout
        exact Except.noConfusion hout
      | false =>
        rw [loginApi_resolve http u p res hns hres hn] at hout
        have hr : remoteResult res = r := Except.ok.inj hout
        rw [← hr]
        show jsOr _ _ = m
        rw [optChain_message, hm]
        exact jsOr_of_truthy _ _ ht
    refine ⟨hmsg, fun hnot => ?_⟩
    rw [hmsg]
    cases m with
    | str s => exact absurd rfl (hnot s)
    | _ => rfl

/-- Witness for C8: status 200 with the message "Bad password". -/
theorem C8_message_truthy_witness :
    (loginApi (resolving (responseWith 200 (JSValue.str "Bad password")))
        (JSValue.str "alice") (JSValue.str "secret")).outcome =
      Except.ok ⟨false, JSValue.str "Bad password",
        JSValue.object [("message", JSValue.str "Bad password")]⟩ ∧
    toBoolean (JSValue.str "Bad password") = true ∧
    ((∀ res m,
        resolving (responseWith 200 (JSValue.str "Bad password")) "users/login"
            (JSValue.object [("username", JSValue.str "alice"),
              ("password", JSValue.str "secret")]) = Except.ok res →
        messageField res = some m → toBoolean m = true → ∃ s, m = JSValue.str s) →
      isNonEmptyString (JSValue.str "Bad password") = true) ∧
    (¬ isSentinel (JSValue.str "alice") (JSValue.str "secret") →
      ∀ res m,
        resolving (responseWith 200 (JSValue.str "Bad password")) "users/login"
            (JSValue.object [("username", JSValue.str "alice"),
              ("password", JSValue.str "secret")]) = Except.ok res →
        messageField res = some m → toBoolean m = true →
        JSValue.str "Bad password" = m ∧
          ((∀ s, m ≠ JSValue.str s) →
            isNonEmptyString (JSValue.str "Bad password") = false)) :=
  have hout : (loginApi (resolving (responseWith 200 (JSValue.str "Bad password")))
        (JSValue.str "alice") (JSValue.str "secret")).outcome =
      Except.ok ⟨false, JSValue.str "Bad password",
        JSValue.object [("message", JSValue.str "Bad password")]⟩ := by
    rw [loginApi_resolve (resolving (responseWith 200 (JSValue.str "Bad password"))) _ _
      (responseWith 200 (JSValue.str "Bad password")) (by simp [isSentinel]) rfl rfl]
    rfl
  ⟨hout, C8_message_truthy _ _ _ _ hout⟩

/-- C9: on the remote path, for every response that has a body, the result's
raw is that body unmodified, independently of status and of ok; and status
200 with the body holding the message "Login successful" yields ok true,
message "Login successful" and that body as raw. -/
theorem C9_raw_is_body (http : Transport) (u p res d : JSValue)
    (h : ¬ isSentinel u p)
    (hr : http "users/login" (JSValue.object [("username", u), ("password", p)]) =
      Except.ok res)
    (hb : bodyOf res = some d) :
    ∃ r, (loginApi http u p).outcome = Except.ok r ∧ r.raw = d ∧
      (res = responseWith 200 (JSValue.str "Login successful") →
        r = ⟨true, JSValue.str "Login successful",
          JSValue.object [("message", JSValue.str "Login successful")]⟩) := by
  rw [loginApi_resolve http u p res h hr (not_nullish_of_bodyOf res d hb)]
  refine ⟨_, rfl, ?_, ?_⟩
  · show optChain res "data" = d
    rw [optChain_data, hb]
    rfl
  · intro hres
    subst hres
    rfl

/-- Witness for C9: status 404 with a body of two fields. -/
theorem C9_raw_is_body_witness :
    ¬ isSentinel (JSValue.str "alice") (JSValue.str "secret") ∧
    resolving (JSValue.object [("status", JSValue.number 404),
        ("data", JSValue.object [("message", JSValue.str "No such user"),
          ("code", JSValue.number 7)])]) "users/login"
        (JSValue.object [("username", JSValue.str "alice"),
          ("password", JSValue.str "secret")]) =
      Except.ok (JSValue.object [("status", JSValue.number 404),
        ("data", JSValue.object [("message", JSValue.str "No such user"),
          ("code", JSValue.number 7)])]) ∧
    bodyOf (JSValue.object [("status", JSValue.number 404),
        ("data", JSValue.object [("message", JSValue.str "No such user"),
          ("code", JSValue.number 7)])]) =
      some (JSValue.object [("message", JSValue.str "No such user"),
          ("code", JSValue.number 7)]) ∧
    ∃ r, (loginApi (resolving (JSValue.object [("status", JSValue.number 404),
        ("data", JSValue.object [("message", JSValue.str "No such user"),
          ("code", JSValue.number 7)])])) (JSValue.str "alice")
        (JSValue.str "secret")).outcome = Except.ok r ∧
      r.raw = JSValue.object [("message", JSValue.str "No such user"),
          ("code", JSValue.number 7)] ∧
      (JSValue.object [("status", JSValue.number 404),
        ("data", JSValue.object [("message", JSValue.str "No such user"),
          ("code", JSValue.number 7)])] =
          responseWith 200 (JSValue.str "Login successful") →
        r = ⟨true, JSValue.str "Login successful",
          JSValue.object [("message", JSValue.str "Login successful")]⟩) :=
  ⟨by simp [isSentinel], rfl, rfl,
    C9_raw_is_body _ _ _ _ _ (by simp [isSentinel]) rfl rfl⟩

/-- C10: on the remote path, for every response of the agreed shape (status a
number, data an object or undefined) that is not status 200 together with
the message "Login successful", loginApi returns a result with ok false and
does not fail. -/
theorem C10_rejection_is_a_result (http : Transport) (u p res : JSValue)
    (h : ¬ isSentinel u p)
    (hr : http "users/login" (JSValue.object [("username", u), ("password", p)]) =
      Except.ok res)
    (hs : AgreedShape res)
    (hne : ¬ (statusField res = some (JSValue.number 200) ∧
      messageField res = some (JSValue.str "Login successful"))) :
    ∃ r, (loginApi http u p).outcome = Except.ok r ∧ r.ok = false := by
  have hn : isNullish res = false := by
    rcases hs.1 with ⟨n, hst⟩ | hst
    · exact not_nullish_of_statusField res _ hst
    · exact not_nullish_of_statusField res _ hst
  rw [loginApi_resolve http u p res h hr hn]
  refine ⟨_, rfl, ?_⟩
  show remoteOk res = false
  rw [Bool.eq_false_iff]
  exact fun hc => hne ((remoteOk_iff res).mp hc)

/-- Witness for C10: status 401 with the message "Invalid credentials". -/
theorem C10_rejection_is_a_result_witness :
    ¬ isSentinel (JSValue.str "alice") (JSValue.str "secret") ∧
    resolving (responseWith 401 (JSValue.str "Invalid credentials")) "users/login"
        (JSValue.object [("username", JSValue.str "alice"),
          ("password", JSValue.str "secret")]) =
      Except.ok (responseWith 401 (JSValue.str "Invalid credentials")) ∧
    AgreedShape (responseWith 401 (JSValue.str "Invalid credentials")) ∧
    ¬ (statusField (responseWith 401 (JSValue.str "Invalid credentials")) =
          some (JSValue.number 200) ∧
        messageField (responseWith 401 (JSValue.str "Invalid credentials")) =
          some (JSValue.str "Login successful")) ∧
    ∃ r, (loginApi (resolving (responseWith 401 (JSValue.str "Invalid credentials")))
        (JSValue.str "alice") (JSValue.str "secret")).outcome = Except.ok r ∧
      r.ok = false :=
  have hs : AgreedShape (responseWith 401 (JSValue.str "Invalid credentials")) :=
    ⟨Or.inl ⟨401, rfl⟩, Or.inr (Or.inr ⟨_, rfl⟩)⟩
  have hne : ¬ (statusField (responseWith 401 (JSValue.str "Invalid credentials")) =
          some (JSValue.number 200) ∧
        messageField (responseWith 401 (JSValue.str "Invalid credentials")) =
          some (JSValue.str "Login successful")) := by
    simp [statusField, messageField, bodyOf, responseWith]
  ⟨by simp [isSentinel], rfl, hs, hne,
    C10_rejection_is_a_result _ _ _ _ (by simp [isSentinel]) rfl hs hne⟩

/-- C11, as stated, fails: on the remote path, when the transport resolves,
the run performs a second effect after the transport call, the console log
of the response. -/
theorem C11_counterexample :
    (loginApi (resolving (responseWith 200 (JSValue.str "Login successful")))
        (JSValue.str "alice") (JSValue.str "secret")).trace =
      [Effect.post "users/login"
          (JSValue.object [("username", JSValue.str "alice"),
            ("password", JSValue.str "secret")]),
        Effect.log (responseWith 200 (JSValue.str "Login successful"))] ∧
    [Effect.post "users/login"
          (JSValue.object [("username", JSValue.str "alice"),
            ("password", JSValue.str "secret")]),
        Effect.log (responseWith 200 (JSValue.str "Login successful"))] ≠
      [Effect.post "users/login"
          (JSValue.object [("username", JSValue.str "alice"),
            ("password", JSValue.str "secret")])] := by
  refine ⟨?_, by simp⟩
  rw [loginApi_resolve (resolving (responseWith 200 (JSValue.str "Login successful"))) _ _
    (responseWith 200 (JSValue.str "Login successful")) (by simp [isSentinel]) rfl rfl]
  rfl

/-- C11, amended: with effects as an explicit trace, on the bypass path
loginApi performs no effect at all; on the remote path its effects are the
single transport call and, when that call resolves with a response, one
console log of that response after it, and nothing else. -/
theorem C11_effect_trace (http : Transport) (u p : JSValue) (h : ¬ isSentinel u p) :
    (loginApi http (JSValue.str "admin@giantmindsolutions.com")
        (JSValue.str "admin@123")).trace = [] ∧
    (∀ e,
      http "users/login" (JSValue.object [("username", u), ("password", p)]) =
        Except.error e →
      (loginApi http u p).trace =
        [Effect.post "users/login"
          (JSValue.object [("username", u), ("password", p)])]) ∧
    (∀ res,
      http "users/login" (JSValue.object [("username", u), ("password", p)]) =
        Except.ok res →
      (loginApi http u p).trace =
        [Effect.post "users/login"
            (JSValue.object [("username", u), ("password", p)]),
          Effect.log res]) := by
  refine ⟨?_, ?_, ?_⟩
  · rw [loginApi_sentinel]
  · intro e hr
    rw [loginApi_reject http u p e h hr]
    rfl
  · intro res hr
    cases hn : isNullish res with
    | true => rw [loginApi_resolve_nullish http u p res h hr hn]; rfl
    | false => rw [loginApi_resolve http u p res h hr hn]; rfl

/-- Witness for C11: a transport resolving with status 401. -/
theorem C11_effect_trace_witness :
    ¬ isSentinel (JSValue.str "alice") (JSValue.str "secret") ∧
    ((loginApi (resolving (responseWith 401 (JSValue.str "Invalid credentials")))
        (JSValue.str "admin@giantmindsolutions.com")
        (JSValue.str "admin@123")).trace = [] ∧
    (∀ e,
      resolving (responseWith 401 (JSValue.str "Invalid credentials")) "users/login"
          (JSValue.object [("username", JSValue.str "alice"),
            ("password", JSValue.str "secret")]) = Except.error e →
      (loginApi (resolving (responseWith 401 (JSValue.str "Invalid credentials")))
          (JSValue.str "alice") (JSValue.str "secret")).trace =
        [Effect.post "users/login"
          (JSValue.object [("username", JSValue.str "alice"),
            ("password", JSValue.str "secret")])]) ∧
    (∀ res,
      resolving (responseWith 401 (JSValue.str "Invalid credentials")) "users/login"
          (JSValue.object [("username", JSValue.str "alice"),
            ("password", JSValue.str "secret")]) = Except.ok res →
      (loginApi (resolving (responseWith 401 (JSValue.str "Invalid credentials")))
          (JSValue.str "alice") (JSValue.str "secret")).trace =
        [Effect.post "users/login"
            (JSValue.object [("username", JSValue.str "alice"),
              ("password", JSValue.str "secret")]),
          Effect.log res])) :=
  ⟨by simp [isSentinel], C11_effect_trace _ _ _ (by simp [isSentinel])⟩

/-- C12: for every credential pair and every transport, when loginApi returns
a result with ok true, that result's message is exactly "Login successful",
on the bypass path and on the remote path alike; the converse fails, since
status 401 with the message "Login successful" gives that message with ok
false. -/
theorem C12_ok_implies_success_message (http : Transport) (u p : JSValue)
    (r : VerificationResult)
    (hout : (loginApi http u p).outcome = Except.ok r) (hok : r.ok = true) :
    r.message = JSValue.str "Login successful" ∧
    ∃ r2, (loginApi (resolving (responseWith 401 (JSValue.str "Login successful")))
        (JSValue.str "alice") (JSValue.str "secret")).outcome = Except.ok r2 ∧
      r2.message = JSValue.str "Login successful" ∧ r2.ok = false := by
  constructor
  · rcases loginApi_outcome_cases http u p r hout with hr | ⟨res, _, hr⟩
    · subst hr
      rfl
    · subst hr
      have hm : messageField res = some (JSValue.str "Login successful") :=
        ((remoteOk_iff res).mp hok).2
      show jsOr _ _ = _
      rw [optChain_message, hm]
      exact jsOr_of_truthy _ _ (by rfl)
  · rw [loginApi_resolve (resolving (responseWith 401 (JSValue.str "Login successful")))
      _ _ (responseWith 401 (JSValue.str "Login successful")) (by simp [isSentinel])
      rfl rfl]
    exact ⟨_, rfl, rfl, rfl⟩

/-- Witness for C12: status 200 with the message "Login successful". -/
theorem C12_ok_implies_success_message_witness :
    (loginApi (resolving (responseWith 200 (JSValue.str "Login successful")))
        (JSValue.str "alice") (JSValue.str "secret")).outcome =
      Except.ok ⟨true, JSValue.str "Login successful",
        JSValue.object [("message", JSValue.str "Login successful")]⟩ ∧
    (true = true) ∧
    (JSValue.str "Login successful" = JSValue.str "Login successful" ∧
    ∃ r2, (loginApi (resolving (responseWith 401 (JSValue.str "Login successful")))
        (JSValue.str "alice") (JSValue.str "secret")).outcome = Except.ok r2 ∧
      r2.message = JSValue.str "Login successful" ∧ r2.ok = false) :=
  have hout : (loginApi (resolving (responseWith 200 (JSValue.str "Login successful")))
        (JSValue.str "alice") (JSValue.str "secret")).outcome =
      Except.ok ⟨true, JSValue.str "Login successful",
        JSValue.object [("message", JSValue.str "Login successful")]⟩ := by
    rw [loginApi_resolve (resolving (responseWith 200 (JSValue.str "Login successful")))
      _ _ (responseWith 200 (JSValue.str "Login successful")) (by simp [isSentinel])
      rfl rfl]
    rfl
  ⟨hout, rfl, C12_ok_implies_success_message _ _ _ _ hout rfl⟩

/-- C13: on the remote path, whenever the fallback of the logical or is used
(the body's message is absent or falsy: undefined, null, the empty string, 0,
false), ok is false and the result's message is "Login failed"; and for
every response a result with ok true has a truthy message field, so the
"Login successful" arm of the fallback is never taken. -/
theorem C13_fallback_is_login_failed (http : Transport) (u p res : JSValue)
    (h : ¬ isSentinel u p)
    (hr : http "users/login" (JSValue.object [("username", u), ("password", p)]) =
      Except.ok res) :
    (isNullish res = false →
      (messageField res = none ∨
        ∃ m, messageField res = some m ∧ toBoolean m = false) →
      ∃ r, (loginApi http u p).outcome = Except.ok r ∧ r.ok = false ∧
        r.message = JSValue.str "Login failed") ∧
    (∀ r, (loginApi http u p).outcome = Except.ok r → r.ok = true →
      ∃ m, messageField res = some m ∧ toBoolean m = true) ∧
    (toBoolean JSValue.undefined = false ∧ toBoolean JSValue.null = false ∧
      toBoolean (JSValue.str "") = false ∧ toBoolean (JSValue.number 0) = false ∧
      toBoolean (JSValue.bool false) = false) := by
  refine ⟨?_, ?_, rfl, rfl, rfl, rfl, rfl⟩
  · intro hn hm
    have hf : toBoolean (optChain (optChain res "data") "message") = false := by
      rw [optChain_message]
      rcases hm with hm | ⟨m, hm, hf⟩
      · rw [hm]; rfl
      · rw [hm]; exact hf
    have hok : remoteOk res = false := remoteOk_false_of_falsy_message res hf
    rw [loginApi_resolve http u p res h hr hn]
    refine ⟨_, rfl, hok, ?_⟩
    show jsOr _ _ = _
    rw [jsOr_of_falsy _ _ hf, hok]
    rfl
  · intro r hout hok
    cases hn : isNullish res with
    | true =>
      rw [loginApi_resolve_nullish http u p res h hr hn] at hout
      exact Except.noConfusion hout
    | false =>
      rw [loginApi_resolve http u p res h hr hn] at hout
      have hres : remoteResult res = r := Except.ok.inj hout
      rw [← hres] at hok
      exact ⟨_, ((remoteOk_iff res).mp hok).2, by rfl⟩

/-- Witness for C13: status 200 with a body whose message is null. -/
theorem C13_fallback_is_login_failed_witness :
    ¬ isSentinel (JSValue.str "alice") (JSValue.str "secret") ∧
    resolving (responseWith 200 JSValue.null) "users/login"
        (JSValue.object [("username", JSValue.str "alice"),
          ("password", JSValue.str "secret")]) =
      Except.ok (responseWith 200 JSValue.null) ∧
    ((isNullish (responseWith 200 JSValue.null) = false →
      (messageField (responseWith 200 JSValue.null) = none ∨
        ∃ m, messageField (responseWith 200 JSValue.null) = some m ∧
          toBoolean m = false) →
      ∃ r, (loginApi (resolving (responseWith 200 JSValue.null)) (JSValue.str "alice")
          (JSValue.str "secret")).outcome = Except.ok r ∧ r.ok = false ∧
        r.message = JSValue.str "Login failed") ∧
    (∀ r, (loginApi (resolving (responseWith 200 JSValue.null)) (JSValue.str "alice")
          (JSValue.str "secret")).outcome = Except.ok r → r.ok = true →
      ∃ m, messageField (responseWith 200 JSValue.null) = some m ∧
        toBoolean m = true) ∧
    (toBoolean JSValue.undefined = false ∧ toBoolean JSValue.null = false ∧
      toBoolean (JSValue.str "") = false ∧ toBoolean (JSValue.number 0) = false ∧
      toBoolean (JSValue.bool false) = false)) :=
  ⟨by simp [isSentinel], rfl,
    C13_fallback_is_login_failed _ _ _ _ (by simp [isSentinel]) rfl⟩

/-- C14: for every credential pair other than the sentinel pair, when the
transport resolves with null or undefined, loginApi fails with the TypeError
of the unguarded status read and returns no result; for every other
response, whatever its data, loginApi returns a result and does not fail. -/
theorem C14_nullish_response_throws (http : Transport) (u p res : JSValue)
    (h : ¬ isSentinel u p)
    (hr : http "users/login" (JSValue.object [("username", u), ("password", p)]) =
      Except.ok res) :
    ((res = JSValue.null ∨ res = JSValue.undefined) →
      (loginApi http u p).outcome = Except.error typeError ∧
        ∀ r, (loginApi http u p).outcome ≠ Except.ok r) ∧
    (res ≠ JSValue.null → res ≠ JSValue.undefined →
      ∃ r, (loginApi http u p).outcome = Except.ok r) := by
  constructor
  · intro hres
    have hn : isNullish res = true := by
      rcases hres with hres | hres <;> rw [hres] <;> rfl
    rw [loginApi_resolve_nullish http u p res h hr hn]
    exact ⟨rfl, fun r hc => Except.noConfusion hc⟩
  · intro h1 h2
    have hn : isNullish res = false := by
      cases res <;> simp_all [isNullish]
    rw [loginApi_resolve http u p res h hr hn]
    exact ⟨_, rfl⟩

/-- Witness for C14: a transport resolving with null. -/
theorem C14_nullish_response_throws_witness :
    ¬ isSentinel (JSValue.str "alice") (JSValue.str "secret") ∧
    resolving JSValue.null "users/login"
        (JSValue.object [("username", JSValue.str "alice"),
          ("password", JSValue.str "secret")]) = Except.ok JSValue.null ∧
    (((JSValue.null = JSValue.null ∨ JSValue.null = JSValue.undefined) →
      (loginApi (resolving JSValue.null) (JSValue.str "alice")
          (JSValue.str "secret")).outcome = Except.error typeError ∧
        ∀ r, (loginApi (resolving JSValue.null) (JSValue.str "alice")
          (JSValue.str "secret")).outcome ≠ Except.ok r) ∧
    (JSValue.null ≠ JSValue.null → JSValue.null ≠ JSValue.undefined →
      ∃ r, (loginApi (resolving JSValue.null) (JSValue.str "alice")
          (JSValue.str "secret")).outcome = Except.ok r)) :=
  ⟨by simp [isSentinel], rfl,
    C14_nullish_response_throws _ _ _ _ (by simp [isSentinel]) rfl⟩

/-- C15: on the remote path the outcome is a function of the transport
response alone: for any two credential pairs other than the sentinel pair
whose transport calls resolve with the same response, the two runs of
loginApi have equal outcomes, the same ok, message and raw. -/
theorem C15_result_independent_of_credentials (http1 http2 : Transport)
    (u1 p1 u2 p2 res : JSValue)
    (h1 : ¬ isSentinel u1 p1) (h2 : ¬ isSentinel u2 p2)
    (hr1 : http1 "users/login" (JSValue.object [("username", u1), ("password", p1)]) =
      Except.ok res)
    (hr2 : http2 "users/login" (JSValue.object [("username", u2), ("password", p2)]) =
      Except.ok res) :
    (loginApi http1 u1 p1).outcome = (loginApi http2 u2 p2).outcome := by
  cases hn : isNullish res with
  | true =>
    rw [loginApi_resolve_nullish http1 u1 p1 res h1 hr1 hn,
      loginApi_resolve_nullish http2 u2 p2 res h2 hr2 hn]
  | false =>
    rw [loginApi_resolve http1 u1 p1 res h1 hr1 hn,
      loginApi_resolve http2 u2 p2 res h2 hr2 hn]

/-- Witness for C15: two users, one transport, one response. -/
theorem C15_result_independent_of_credentials_witness :
    ¬ isSentinel (JSValue.str "alice") (JSValue.str "secret") ∧
    ¬ isSentinel (JSValue.str "bob") (JSValue.str "hunter2") ∧
    resolving (responseWith 200 (JSValue.str "Login successful")) "users/login"
        (JSValue.object [("username", JSValue.str "alice"),
          ("password", JSValue.str "secret")]) =
      Except.ok (responseWith 200 (JSValue.str "Login successful")) ∧
    resolving (responseWith 200 (JSValue.str "Login successful")) "users/login"
        (JSValue.object [("username", JSValue.str "bob"),
          ("password", JSValue.str "hunter2")]) =
      Except.ok (responseWith 200 (JSValue.str "Login successful")) ∧
    (loginApi (resolving (responseWith 200 (JSValue.str "Login successful")))
        (JSValue.str "alice") (JSValue.str "secret")).outcome =
      (loginApi (resolving (responseWith 200 (JSValue.str "Login successful")))
        (JSValue.str "bob") (JSValue.str "hunter2")).outcome :=
  ⟨by simp [isSentinel], by simp [isSentinel], rfl, rfl,
    C15_result_independent_of_credentials _ _ _ _ _ _ _ (by simp [isSentinel])
      (by simp [isSentinel]) rfl rfl⟩

end Auth
